import Mathlib

/-!
Verification of the ImageGuessr content-generation pipeline
(scripts/image.py) against its natural-language specification.

The Python script is shallowly embedded: every external collaborator
(HTTP fetch, Gemini describe/generate, Vercel blob storage, Supabase
database, the scraped DOM) is passed in as an explicit oracle or as an
explicit database state, and each Python function becomes a Lean
function over those oracles.  Fallible code returns Except.  Python
truthiness on optional strings (None and the empty string are falsy)
is modelled explicitly by pyTruthy.
-/

/-- Error raised by scrape_images_from_random_categories when the
combined scrape total is still short after all categories. -/
structure InsufficientSourceError where
deriving DecidableEq, Repr

/-- Error raised by database operations on transport or insert failure. -/
structure PersistenceError where
deriving DecidableEq, Repr

/-- Taxonomy of the exceptions raised by the pipeline stages of
process_image_pair in scripts/image.py. -/
inductive PipelineError where
  | fetchError
  | synthesisError
  | attributeError
  | generationError
  | publishError
deriving DecidableEq, Repr

/-- Result of requests.get for an image URL: HTTP status and body bytes
(bytes are modelled as an opaque String). -/
structure HttpResponse where
  status : Nat
  content : String
deriving DecidableEq, Repr

/-- Result of the requests.put call to Vercel blob storage: HTTP status
and the optional url field of the parsed JSON body. -/
structure BlobResponse where
  status : Nat
  url : Option String
deriving DecidableEq, Repr

/-- Row of the models table: id and name. -/
structure ModelRow where
  id : String
  name : String
deriving DecidableEq, Repr

/-- Row of the games table: id and date string YYYY-MM-DD. -/
structure GameRow where
  id : String
  date : String
deriving DecidableEq, Repr

/-- Row of the files table: id, url, source_type, nullable source_id
referencing a model, nullable prompt. -/
structure FileRow where
  id : String
  url : String
  source_type : String
  source_id : Option String
  prompt : Option String
deriving DecidableEq, Repr

/-- Row of the file_pairs table. -/
structure FilePairRow where
  id : String
  real_file_id : String
  generated_file_id : String
  game_id : String
  real_vote_count : Nat
  generated_vote_count : Nat
deriving DecidableEq, Repr

/-- The Supabase database state seen by the script: the four tables and
a counter supplying the ids that inserts return. -/
structure Db where
  models : List ModelRow
  games : List GameRow
  files : List FileRow
  file_pairs : List FilePairRow
  nextId : Nat
deriving DecidableEq, Repr

/-- Python truthiness of an optional string: None and the empty string
are falsy.  This is the semantics of the check if game_id: in
process_image_pair. -/
def pyTruthy : Option String → Bool
  | none => false
  | some s => s != ""

/-- Python str.strip(): remove leading and trailing whitespace. -/
def pyStrip (s : String) : String :=
  ⟨((s.data.dropWhile Char.isWhitespace).reverse.dropWhile Char.isWhitespace).reverse⟩

/-- Substring test, pat in s, on the character lists of the strings. -/
def strContains (s pat : String) : Bool :=
  decide (pat.data <:+: s.data)

/-- Python url.split(chr 63)[0]: everything before the first question
mark, i.e. the URL with its query parameters stripped. -/
def stripQuery (s : String) : String :=
  ⟨s.data.takeWhile (· != '?')⟩

/-- Embedding of get_existing_urls_from_database (image.py lines 67-89).
The argument is the outcome of the Supabase select call.  The except
branch of the source catches every failure, prints a warning
(Continuing without duplicate checking) and returns the empty set, so
this function never propagates a PersistenceError. -/
def get_existing_urls_from_database
    (queryResult : Except PersistenceError (List String)) :
    Except PersistenceError (List String) :=
  match queryResult with
  | .error _ => .ok []
  | .ok data => .ok (if data = [] then [] else data.dedup)

/-- Embedding of get_or_create_model (image.py lines 383-397): select the
first models row by name; if none, insert a fresh row and return its id. -/
def get_or_create_model (model_name : String) (db : Db) : String × Db :=
  match db.models.find? (fun r => r.name == model_name) with
  | some r => (r.id, db)
  | none =>
      let row : ModelRow := ⟨toString db.nextId, model_name⟩
      (row.id, { db with models := db.models ++ [row], nextId := db.nextId + 1 })

/-- Embedding of get_or_create_game (image.py lines 400-428): select the
first games row by date; if none, insert a fresh row and return its id. -/
def get_or_create_game (game_date : String) (db : Db) : String × Db :=
  match db.games.find? (fun r => r.date == game_date) with
  | some r => (r.id, db)
  | none =>
      let row : GameRow := ⟨toString db.nextId, game_date⟩
      (row.id, { db with games := db.games ++ [row], nextId := db.nextId + 1 })

/-- Embedding of insert_file_record (image.py lines 357-380): insert a
files row and return the fresh id. -/
def insert_file_record (url source_type : String)
    (source_id : Option String) (prompt : Option String) (db : Db) :
    String × Db :=
  let id := toString db.nextId
  (id, { db with
          files := db.files ++ [⟨id, url, source_type, source_id, prompt⟩],
          nextId := db.nextId + 1 })

/-- Embedding of create_file_pair (image.py lines 431-460): insert a
file_pairs row with both vote counts 0 and return the fresh id. -/
def create_file_pair (real_file_id generated_file_id game_id : String)
    (db : Db) : String × Db :=
  let id := toString db.nextId
  (id, { db with
          file_pairs := db.file_pairs ++
            [⟨id, real_file_id, generated_file_id, game_id, 0, 0⟩],
          nextId := db.nextId + 1 })

/-- Embedding of download_image (image.py lines 229-235): perform the
GET (oracle fetch), raise on a network failure or a status other
than 200. -/
def download_image (fetch : String → Except Unit HttpResponse)
    (url : String) : Except PipelineError String :=
  match fetch url with
  | .error _ => .error .fetchError
  | .ok response =>
      if response.status ≠ 200 then .error .fetchError
      else .ok response.content

/-- Embedding of generate_image_description (image.py lines 238-279):
download the image, call the Gemini vision model (oracle describe,
returning the optional text field of the response), then return
response.text.strip().  The source performs no empty-text check: an
empty text is stripped and returned; a missing (None) text makes the
strip() call raise an AttributeError. -/
def generate_image_description
    (fetch : String → Except Unit HttpResponse)
    (describe : String → Except Unit (Option String))
    (image_url : String) : Except PipelineError String :=
  match download_image fetch image_url with
  | .error e => .error e
  | .ok image_bytes =>
      match describe image_bytes with
      | .error _ => .error .synthesisError
      | .ok none => .error .attributeError
      | .ok (some description) => .ok (pyStrip description)

/-- Embedding of generate_image_with_imagen (image.py lines 282-325):
call the image model (oracle generate, returning the first image part
of the response if any); raise if the call fails or no image part is
present. -/
def generate_image_with_imagen
    (generate : String → Except Unit (Option String))
    (description : String) : Except PipelineError String :=
  match generate ("Generate an image that matches the following description: "
      ++ description) with
  | .error _ => .error .generationError
  | .ok none => .error .generationError
  | .ok (some image_bytes) => .ok image_bytes

/-- Embedding of upload_to_vercel_blob (image.py lines 328-354).  The
argument is the outcome of the requests.put call.  The source raises
unless the status is exactly 200 or 201, then reads the url field of
the JSON body and raises when it is absent or falsy (empty). -/
def upload_to_vercel_blob
    (putResult : Except Unit BlobResponse) : Except PipelineError String :=
  match putResult with
  | .error _ => .error .publishError
  | .ok response =>
      if response.status ≠ 200 ∧ response.status ≠ 201 then
        .error .publishError
      else
        match response.url with
        | none => .error .publishError
        | some public_url =>
            if public_url = "" then .error .publishError
            else .ok public_url

/-- External collaborators of process_image_pair. -/
structure Env where
  fetch : String → Except Unit HttpResponse
  describe : String → Except Unit (Option String)
  generate : String → Except Unit (Option String)
  blobPut : String → String → Except Unit BlobResponse
  now_ms : Nat

/-- Result dict of process_image_pair. -/
structure PairResult where
  realFileId : String
  generatedFileId : String
  prompt : String
  filePairId : Option String
deriving DecidableEq, Repr

/-- Persistence tail of process_image_pair (steps 5-7, image.py lines
634-657): resolve the model record, insert the two file records, and,
when game_id is truthy, insert the file pair. -/
def persistPair (real_image_url generated_image_public_url prompt : String)
    (game_id : Option String) (db : Db) : PairResult × Db :=
  let m := get_or_create_model "Gemini 2.5 Flash Image" db
  let r := insert_file_record real_image_url "real" none none m.2
  let g := insert_file_record generated_image_public_url "generated"
      (some m.1) (some prompt) r.2
  if pyTruthy game_id then
    let fp := create_file_pair r.1 g.1 (game_id.getD "") g.2
    (⟨r.1, g.1, prompt, some fp.1⟩, fp.2)
  else
    (⟨r.1, g.1, prompt, none⟩, g.2)

/-- Embedding of process_image_pair (image.py lines 596-670): download
the real image, synthesize a description, generate the counterfeit,
upload it under generated-timestamp.jpg, then run the persistence
steps. -/
def process_image_pair (env : Env) (real_image_url : String)
    (game_id : Option String) (db : Db) :
    Except PipelineError (PairResult × Db) :=
  match download_image env.fetch real_image_url with
  | .error e => .error e
  | .ok _real_image_bytes =>
    match generate_image_description env.fetch env.describe real_image_url with
    | .error e => .error e
    | .ok prompt =>
      match generate_image_with_imagen env.generate prompt with
      | .error e => .error e
      | .ok generated_image_bytes =>
        let filename := "generated-" ++ toString env.now_ms ++ ".jpg"
        match upload_to_vercel_blob (env.blobPut filename generated_image_bytes) with
        | .error e => .error e
        | .ok generated_image_public_url =>
            .ok (persistPair real_image_url generated_image_public_url
                  prompt game_id db)

/-- Scheduler slice for one day (image.py lines 841-843 in the
create-week loop): day day_idx, counted from 1, receives the pool
elements from (day_idx - 1) * images_per_day up to but excluding
day_idx * images_per_day. -/
def day_slice (all_image_urls : List String)
    (images_per_day day_idx : Nat) : List String :=
  (all_image_urls.drop ((day_idx - 1) * images_per_day)).take images_per_day

/-- Loop body of process_images_for_game (image.py lines 575-587): run
the pipeline once per enumerated URL, counting successes and failures;
the third component is the trace of attempted (index, url) pairs, in
order.  The oracle runPair tells whether the pipeline run for a given
enumerated URL succeeds. -/
def processLoop (runPair : Nat → String → Bool) (processed failed : Nat) :
    List (Nat × String) → Nat × Nat × List (Nat × String)
  | [] => (processed, failed, [])
  | (idx, url) :: rest =>
      let r :=
        if runPair idx url then processLoop runPair (processed + 1) failed rest
        else processLoop runPair processed (failed + 1) rest
      (r.1, r.2.1, (idx, url) :: r.2.2)

/-- Report dict returned by process_images_for_game. -/
structure GameReport where
  game_id : String
  processed_count : Nat
  failed_count : Nat
deriving DecidableEq, Repr

/-- Embedding of process_images_for_game (image.py lines 550-593): get
or create the game (getGame is the outcome of that call), then process
the URLs sequentially, enumerated from 1, tallying counts; a failure of
one URL only increments failed_count. -/
def process_images_for_game (getGame : Except PersistenceError String)
    (runPair : Nat → String → Bool) (image_urls : List String) :
    Except PersistenceError GameReport :=
  match getGame with
  | .error e => .error e
  | .ok game_id =>
      let r := processLoop runPair 0 0 (image_urls.enumFrom 1)
      .ok ⟨game_id, r.1, r.2.1⟩

/-- Inner element loop of scrape_unsplash_category (image.py lines
149-181).  Each entry of the urls argument is the first URL extracted
from the srcset of one img element of the current DOM snapshot.  A URL
is skipped when it is premium (plus.unsplash.com or premium_photo),
when it does not belong to images.unsplash.com, or when, after query
stripping, it is already collected or already in the database; the
loop breaks once max_images URLs are collected. -/
def scanSrcset (max_images : Nat) (existing_urls : List String) :
    List String → List String → List String
  | acc, [] => acc
  | acc, url :: rest =>
      if strContains url "plus.unsplash.com" || strContains url "premium_photo" then
        scanSrcset max_images existing_urls acc rest
      else if strContains url "images.unsplash.com" then
        let u := stripQuery url
        if u ∈ acc then scanSrcset max_images existing_urls acc rest
        else if u ∈ existing_urls then scanSrcset max_images existing_urls acc rest
        else
          let acc2 := acc ++ [u]
          if max_images ≤ acc2.length then acc2
          else scanSrcset max_images existing_urls acc2 rest
      else scanSrcset max_images existing_urls acc rest

/-- Scroll loop of scrape_unsplash_category (image.py lines 136-183):
while scroll budget remains and fewer than max_images URLs are
collected, scroll and scan the fresh DOM snapshot.  The snapshots
argument plays the role of the page source after each scroll; its
length is the scroll budget (15 in the source). -/
def scrollLoop (max_images : Nat) (existing_urls : List String) :
    List (List String) → List String → List String
  | [], acc => acc
  | snapshot :: rest, acc =>
      if max_images ≤ acc.length then acc
      else scrollLoop max_images existing_urls rest
            (scanSrcset max_images existing_urls acc snapshot)

/-- Embedding of scrape_unsplash_category (image.py lines 92-193): run
the scroll loop on the empty collection and return at most max_images
of the collected URLs.  The set of already catalogued URLs is passed
in as existing_urls. -/
def scrape_unsplash_category (snapshots : List (List String))
    (existing_urls : List String) (max_images : Nat) : List String :=
  (scrollLoop max_images existing_urls snapshots []).take max_images

/-- Ghost record of one scrape_unsplash_category call made by
scrape_images_from_random_categories: the category scraped, the
max_images requested, and how many URLs had been collected before the
call. -/
structure ScrapeCall where
  category : String
  requested : Nat
  collectedBefore : Nat
deriving DecidableEq, Repr

/-- Category loop of scrape_images_from_random_categories (image.py
lines 504-529): for each category in the (already shuffled) list,
request the remaining shortfall from the scraper oracle; a raised
scrape is caught and skipped; stop early once enough URLs are
collected.  Also returns the trace of calls made. -/
def scrapeLoop (scraper : String → Nat → Except Unit (List String))
    (total_needed : Nat) :
    List String → List String → List ScrapeCall →
    List String × List ScrapeCall
  | [], acc, calls => (acc, calls)
  | category :: rest, acc, calls =>
      let images_needed := total_needed - acc.length
      let calls2 := calls ++ [⟨category, images_needed, acc.length⟩]
      match scraper category images_needed with
      | .error _ => scrapeLoop scraper total_needed rest acc calls2
      | .ok urls =>
          let acc2 := acc ++ urls
          if total_needed ≤ acc2.length then (acc2, calls2)
          else scrapeLoop scraper total_needed rest acc2 calls2

/-- Embedding of scrape_images_from_random_categories (image.py lines
484-547): run the category loop on the shuffled category list; raise
InsufficientSourceError when the collected total is still short after
all categories, otherwise return exactly the first total_needed URLs.
The random shuffle is modelled by quantifying over the category list
order.  The second component is the ghost call trace. -/
def scrape_images_from_random_categories
    (scraper : String → Nat → Except Unit (List String))
    (categories : List String) (total_needed : Nat) :
    Except InsufficientSourceError (List String) × List ScrapeCall :=
  let r := scrapeLoop scraper total_needed categories [] []
  (if r.1.length < total_needed then .error ⟨⟩ else .ok (r.1.take total_needed),
   r.2)

/-- Wiring of scrape_unsplash_category as it is called with
check_database=True: the exclusion set is the result of
get_existing_urls_from_database on the select outcome dbResult. -/
def scrape_unsplash_category_db (snapshots : List (List String))
    (dbResult : Except PersistenceError (List String))
    (max_images : Nat) : List String :=
  scrape_unsplash_category snapshots
    (match get_existing_urls_from_database dbResult with
     | .ok urls => urls
     | .error _ => []) max_images

/-! Helper lemmas. -/

theorem strContains_stripQuery (u pat : String)
    (h : strContains u pat = false) : strContains (stripQuery u) pat = false := by
  simp only [strContains, stripQuery, decide_eq_false_iff_not] at h ⊢
  intro hc
  exact h (hc.trans (List.takeWhile_prefix _).isInfix)

theorem stripQuery_idem (u : String) : stripQuery (stripQuery u) = stripQuery u := by
  simp only [stripQuery]
  exact congrArg String.mk List.takeWhile_idem

theorem pyTruthy_some (gid : Option String) (h : pyTruthy gid = true) :
    gid = some (gid.getD "") := by
  cases gid with
  | none => simp [pyTruthy] at h
  | some s => rfl

/-- C7 counterexample: at the concrete failing select, the function
returns the empty set instead of failing, so the claim that it fails
with PersistenceError whenever the underlying database call fails is
false. -/
theorem fetchExistingUrls_returns_on_failure :
    get_existing_urls_from_database (.error ⟨⟩) = .ok [] ∧
    get_existing_urls_from_database (.error ⟨⟩) ≠ .error ⟨⟩ := by
  exact ⟨rfl, by simp [get_existing_urls_from_database]⟩

/-- C7 amended: get_existing_urls_from_database swallows every failure
of the underlying select and returns the empty set, and it returns a
result on every input; it never propagates a PersistenceError. -/
theorem fetchExistingUrls_swallows_failure (e : PersistenceError)
    (queryResult : Except PersistenceError (List String)) :
    get_existing_urls_from_database (.error e) = .ok [] ∧
    ∃ urls, get_existing_urls_from_database queryResult = .ok urls := by
  refine ⟨rfl, ?_⟩
  cases queryResult with
  | error e2 => exact ⟨[], rfl⟩
  | ok data => exact ⟨_, rfl⟩

/-- C8 counterexample: a model response whose text field is the empty
string makes generate_image_description return the empty description,
not raise, so the claim is false. -/
theorem generateImageDescription_empty_text_ok :
    generate_image_description (fun _ => .ok ⟨200, "realbytes"⟩)
      (fun _ => .ok (some "")) "https://images.unsplash.com/photo-7" =
      .ok "" := rfl

/-- Expected outcome of the description stage as a function of the
model response: a call error propagates as SynthesisError, a missing
text field raises AttributeError, and text t yields the stripped t. -/
def descriptionOutcome : Except Unit (Option String) → Except PipelineError String
  | .error _ => .error .synthesisError
  | .ok none => .error .attributeError
  | .ok (some t) => .ok (pyStrip t)

/-- C8 amended: once the image bytes are downloaded, the description
stage propagates a model-call error as SynthesisError and raises
(AttributeError from strip on None) when the response has no text
field, but a response carrying text t, even empty, yields the stripped
text without error. -/
theorem generateImageDescription_outcomes
    (fetch : String → Except Unit HttpResponse)
    (describe : String → Except Unit (Option String))
    (image_url image_bytes : String) (r : Except Unit (Option String))
    (hdl : download_image fetch image_url = .ok image_bytes)
    (hds : describe image_bytes = r) :
    generate_image_description fetch describe image_url =
      descriptionOutcome r := by
  subst hds
  unfold generate_image_description descriptionOutcome
  rw [hdl]

/-- C8 witness: concrete oracles exercising the amended theorem on a
failing model call. -/
theorem generateImageDescription_outcomes_witness :
    download_image (fun _ => .ok ⟨200, "realbytes"⟩)
      "https://images.unsplash.com/photo-7" = .ok "realbytes" ∧
    (fun _ : String => (.error () : Except Unit (Option String))) "realbytes" =
      .error () ∧
    generate_image_description (fun _ => .ok ⟨200, "realbytes"⟩)
      (fun _ => .error ()) "https://images.unsplash.com/photo-7" =
      .error .synthesisError :=
  ⟨rfl, rfl,
    generateImageDescription_outcomes (fun _ => .ok ⟨200, "realbytes"⟩)
      (fun _ => .error ()) "https://images.unsplash.com/photo-7" "realbytes"
      (.error ()) rfl rfl⟩

/-- C9 counterexample: a 2xx status outside the pair 200, 201 raises
even with a URL present, and a present but empty url field raises even
with status 200, so the claim that PublishError is raised exactly on
non-2xx or a missing URL field is false. -/
theorem uploadBlob_202_and_empty_url_raise :
    upload_to_vercel_blob (.ok ⟨202, some "https://blob.vercel-storage.com/generated-5.jpg"⟩) =
      .error .publishError ∧
    upload_to_vercel_blob (.ok ⟨200, some ""⟩) = .error .publishError :=
  ⟨rfl, rfl⟩

/-- C9 amended: for a received storage response, upload_to_vercel_blob
returns a URL u exactly when the status is 200 or 201 and the body
carries that u as a non-empty url field; in every other case it raises
PublishError. -/
theorem uploadBlob_ok_iff_status_200_201 (response : BlobResponse) (u : String) :
    upload_to_vercel_blob (.ok response) = .ok u ↔
      ((response.status = 200 ∨ response.status = 201) ∧
        response.url = some u ∧ u ≠ "") := by
  obtain ⟨st, url⟩ := response
  simp only [upload_to_vercel_blob]
  by_cases h2 : st = 200 ∨ st = 201
  · have hcond : ¬ (st ≠ 200 ∧ st ≠ 201) := by tauto
    rw [if_neg hcond]
    cases url with
    | none =>
        dsimp only
        exact Iff.intro (fun h => nomatch h) (fun hp => nomatch hp.2.1)
    | some v =>
        dsimp only
        by_cases hv : v = ""
        · subst hv
          rw [if_pos rfl]
          refine Iff.intro (fun h => nomatch h) (fun hp => ?_)
          obtain ⟨-, hsome, hne⟩ := hp
          cases hsome
          exact (hne rfl).elim
        · rw [if_neg hv]
          refine Iff.intro (fun h => ?_) (fun hp => ?_)
          · have hvu : v = u := by injection h
            exact ⟨h2, by rw [hvu], fun hu => hv (hvu.trans hu)⟩
          · obtain ⟨-, hsome, -⟩ := hp
            cases hsome
            rfl
  · have hcond : st ≠ 200 ∧ st ≠ 201 := by tauto
    rw [if_pos hcond]
    exact Iff.intro (fun h => nomatch h) (fun hp => absurd hp.1 h2)

/-- Concatenating the n contiguous k-slices of a list of length n * k,
in slice order, reproduces the list. -/
theorem flatten_slices (k : Nat) :
    ∀ (n : Nat) (l : List String), l.length = n * k →
      ((List.range n).map (fun i => (l.drop (i * k)).take k)).flatten = l := by
  intro n
  induction n with
  | zero =>
      intro l hl
      rw [Nat.zero_mul] at hl
      simp [List.length_eq_zero.mp hl]
  | succ n ih =>
      intro l hl
      have hlen : (l.drop k).length = n * k := by
        rw [List.length_drop, hl, Nat.succ_mul, Nat.add_sub_cancel]
      have hrec := ih (l.drop k) hlen
      rw [List.range_succ_eq_map, List.map_cons, List.map_map]
      have hmap : (List.range n).map
          ((fun i => (l.drop (i * k)).take k) ∘ Nat.succ) =
          (List.range n).map (fun i => ((l.drop k).drop (i * k)).take k) := by
        apply List.map_congr_left
        intro i _
        simp only [Function.comp_apply, List.drop_drop]
        rw [Nat.succ_mul, Nat.add_comm]
      rw [hmap, List.flatten_cons, hrec, Nat.zero_mul, List.drop_zero,
        List.take_append_drop]

/-- C4: for a pool of exactly 7 * imagesPerDay URLs, the create-week
day slices (day d receives indices from (d - 1) * imagesPerDay up to
d * imagesPerDay - 1) concatenate, in day order, back to the original
pool, and every one of the 7 slices has length imagesPerDay; hence the
slices are contiguous and non-overlapping. -/
theorem createWeek_day_partition (pool : List String) (images_per_day : Nat)
    (h : pool.length = 7 * images_per_day) :
    ((List.range 7).map (fun i => day_slice pool images_per_day (i + 1))).flatten
        = pool ∧
    (List.range 7).map (fun i => (day_slice pool images_per_day (i + 1)).length)
        = List.replicate 7 images_per_day := by
  constructor
  · have hj := flatten_slices images_per_day 7 pool h
    simpa [day_slice] using hj
  · have hlen : ∀ d, 1 ≤ d → d ≤ 7 →
        (day_slice pool images_per_day d).length = images_per_day := by
      intro d h1 h7
      have hmul : (d - 1) * images_per_day + images_per_day ≤ 7 * images_per_day := by
        have hd : ((d - 1) + 1) * images_per_day ≤ 7 * images_per_day :=
          Nat.mul_le_mul_right _ (by omega)
        rw [Nat.succ_mul] at hd
        exact hd
      simp only [day_slice, List.length_take, List.length_drop, h]
      rw [Nat.min_eq_left (by omega)]
    rw [List.eq_replicate_iff]
    refine ⟨by simp, ?_⟩
    intro b hb
    simp only [List.mem_map, List.mem_range] at hb
    obtain ⟨i, hi, rfl⟩ := hb
    exact hlen (i + 1) (by omega) (by omega)

/-- C4 witness: the partition property at a concrete pool of 7 URLs
with one image per day. -/
theorem createWeek_day_partition_witness :
    (["a", "b", "c", "d", "e", "f", "g"] : List String).length = 7 * 1 ∧
    (((List.range 7).map
        (fun i => day_slice ["a", "b", "c", "d", "e", "f", "g"] 1 (i + 1))).flatten
        = ["a", "b", "c", "d", "e", "f", "g"] ∧
     (List.range 7).map
        (fun i => (day_slice ["a", "b", "c", "d", "e", "f", "g"] 1 (i + 1)).length)
        = List.replicate 7 1) :=
  ⟨by decide, createWeek_day_partition ["a", "b", "c", "d", "e", "f", "g"] 1 (by decide)⟩

/-- Closed form of the processing loop of process_images_for_game: the
counters accumulate exactly the successes and failures of the oracle
over the enumerated URLs, and the trace of attempted URLs is the whole
enumerated list, in order. -/
theorem processLoop_spec (runPair : Nat → String → Bool) :
    ∀ (l : List (Nat × String)) (processed failed : Nat),
      processLoop runPair processed failed l =
        (processed + l.countP (fun pr => runPair pr.1 pr.2),
         failed + (l.length - l.countP (fun pr => runPair pr.1 pr.2)), l) := by
  intro l
  induction l with
  | nil => intro p f; simp [processLoop]
  | cons hd tl ih =>
      intro p f
      obtain ⟨idx, url⟩ := hd
      have hc := tl.countP_le_length (fun pr : Nat × String => runPair pr.1 pr.2)
      by_cases hrp : runPair idx url
      · simp only [processLoop, hrp, if_true, ih, List.countP_cons, List.length_cons]
        simp [hrp]
        omega
      · simp only [processLoop, hrp, if_false, ih, List.countP_cons, List.length_cons]
        simp [hrp]
        omega

/-- C5: for every pipeline-success oracle, process_images_for_game with
a successfully resolved game processes the URLs sequentially in list
order (the trace of attempted URLs is the full enumerated URL list,
so a failure on one URL never prevents processing the remaining ones),
and returns a report whose processed count is the number of successful
runs and whose counts sum to the number of URLs. -/
theorem processImagesForGame_counts_and_order
    (runPair : Nat → String → Bool) (game_id : String)
    (image_urls : List String) :
    ∃ processed failed,
      process_images_for_game (.ok game_id) runPair image_urls =
        .ok ⟨game_id, processed, failed⟩ ∧
      processed + failed = image_urls.length ∧
      processed = (image_urls.enumFrom 1).countP (fun pr => runPair pr.1 pr.2) ∧
      (processLoop runPair 0 0 (image_urls.enumFrom 1)).2.2 =
        image_urls.enumFrom 1 := by
  have hs := processLoop_spec runPair (image_urls.enumFrom 1) 0 0
  have hc := (image_urls.enumFrom 1).countP_le_length
      (fun pr : Nat × String => runPair pr.1 pr.2)
  have hlen : (image_urls.enumFrom 1).length = image_urls.length :=
    List.enumFrom_length
  refine ⟨(image_urls.enumFrom 1).countP (fun pr => runPair pr.1 pr.2),
      image_urls.length -
        (image_urls.enumFrom 1).countP (fun pr => runPair pr.1 pr.2),
      ?_, by omega, rfl, ?_⟩
  · simp only [process_images_for_game]
    rw [hs]
    simp [hlen]
  · rw [hs]

/-- Every call recorded by the category loop requests exactly the
shortfall, total_needed minus the number of URLs collected before it. -/
theorem scrapeLoop_calls_requested
    (scraper : String → Nat → Except Unit (List String)) (total_needed : Nat) :
    ∀ (cats : List String) (acc : List String) (calls : List ScrapeCall),
      (∀ c ∈ calls, c.requested = total_needed - c.collectedBefore) →
      ∀ c ∈ (scrapeLoop scraper total_needed cats acc calls).2,
        c.requested = total_needed - c.collectedBefore := by
  intro cats
  induction cats with
  | nil =>
      intro acc calls h
      simpa [scrapeLoop] using h
  | cons hd tl ih =>
      intro acc calls h
      have h2 : ∀ c ∈ calls ++ [ScrapeCall.mk hd (total_needed - acc.length) acc.length],
          c.requested = total_needed - c.collectedBefore := by
        intro c hc
        rcases List.mem_append.mp hc with hc | hc
        · exact h c hc
        · simp only [List.mem_singleton] at hc
          subst hc
          rfl
      simp only [scrapeLoop]
      cases hs : scraper hd (total_needed - acc.length) with
      | error e => exact ih _ _ h2
      | ok urls =>
          dsimp only
          split
          · exact fun c hc => h2 c hc
          · exact ih _ _ h2

/-- When the loop result is still short, no early break happened, so the
recorded calls cover every category, in order. -/
theorem scrapeLoop_error_covers
    (scraper : String → Nat → Except Unit (List String)) (total_needed : Nat) :
    ∀ (cats : List String) (acc : List String) (calls : List ScrapeCall),
      (scrapeLoop scraper total_needed cats acc calls).1.length < total_needed →
      ((scrapeLoop scraper total_needed cats acc calls).2).map ScrapeCall.category =
        calls.map ScrapeCall.category ++ cats := by
  intro cats
  induction cats with
  | nil =>
      intro acc calls _
      simp [scrapeLoop]
  | cons hd tl ih =>
      intro acc calls hshort
      simp only [scrapeLoop] at hshort ⊢
      cases hs : scraper hd (total_needed - acc.length) with
      | error e =>
          rw [hs] at hshort
          dsimp only at hshort ⊢
          rw [ih _ _ hshort]
          simp
      | ok urls =>
          rw [hs] at hshort
          dsimp only at hshort ⊢
          by_cases hfull : total_needed ≤ (acc ++ urls).length
          · rw [if_pos hfull] at hshort
            dsimp only at hshort
            exact absurd hshort (by omega)
          · rw [if_neg hfull] at hshort ⊢
            rw [ih _ _ hshort]
            simp

/-- C2: scrape_images_from_random_categories either returns a list of
exactly total_needed URLs, or raises InsufficientSourceError only
after every category has been scraped; and every scrape call requests
exactly the remaining shortfall. -/
theorem scrapeRandomCategories_exact_or_error
    (scraper : String → Nat → Except Unit (List String))
    (categories : List String) (total_needed : Nat) :
    (∀ urls,
        (scrape_images_from_random_categories scraper categories total_needed).1 =
          .ok urls → urls.length = total_needed) ∧
    (∀ e,
        (scrape_images_from_random_categories scraper categories total_needed).1 =
          .error e →
        ((scrape_images_from_random_categories scraper categories total_needed).2).map
          ScrapeCall.category = categories) ∧
    (∀ call ∈ (scrape_images_from_random_categories scraper categories total_needed).2,
        call.requested = total_needed - call.collectedBefore) := by
  refine ⟨?_, ?_, ?_⟩
  · intro urls hok
    simp only [scrape_images_from_random_categories] at hok
    by_cases hshort :
        (scrapeLoop scraper total_needed categories [] []).1.length < total_needed
    · rw [if_pos hshort] at hok
      exact absurd hok (by simp)
    · rw [if_neg hshort] at hok
      have : urls = (scrapeLoop scraper total_needed categories [] []).1.take total_needed := by
        injection hok.symm
      rw [this, List.length_take]
      omega
  · intro e herr
    simp only [scrape_images_from_random_categories] at herr ⊢
    by_cases hshort :
        (scrapeLoop scraper total_needed categories [] []).1.length < total_needed
    · simpa using scrapeLoop_error_covers scraper total_needed categories [] [] hshort
    · rw [if_neg hshort] at herr
      exact absurd herr (by simp)
  · intro call hcall
    simp only [scrape_images_from_random_categories] at hcall
    exact scrapeLoop_calls_requested scraper total_needed categories [] []
      (by intro c hc; exact absurd hc (List.not_mem_nil c)) call hcall

/-- Invariant maintained by the scraping loops: the collection has no
duplicates and every collected URL is outside the exclusion set, free
of both premium markers, and already query-stripped. -/
def ScrapeInv (existing_urls acc : List String) : Prop :=
  acc.Nodup ∧ ∀ u ∈ acc,
    u ∉ existing_urls ∧
    strContains u "plus.unsplash.com" = false ∧
    strContains u "premium_photo" = false ∧
    stripQuery u = u

theorem scanSrcset_inv (max_images : Nat) (existing_urls : List String) :
    ∀ (urls acc : List String), ScrapeInv existing_urls acc →
      ScrapeInv existing_urls (scanSrcset max_images existing_urls acc urls) := by
  intro urls
  induction urls with
  | nil =>
      intro acc h
      simpa [scanSrcset] using h
  | cons url rest ih =>
      intro acc h
      simp only [scanSrcset]
      by_cases hprem :
          (strContains url "plus.unsplash.com" || strContains url "premium_photo") = true
      · rw [if_pos hprem]
        exact ih acc h
      · rw [if_neg hprem]
        simp only [Bool.or_eq_true, not_or, Bool.not_eq_true] at hprem
        by_cases hiu : strContains url "images.unsplash.com" = true
        · rw [if_pos hiu]
          by_cases hmem : stripQuery url ∈ acc
          · rw [if_pos hmem]
            exact ih acc h
          · rw [if_neg hmem]
            by_cases hex : stripQuery url ∈ existing_urls
            · rw [if_pos hex]
              exact ih acc h
            · rw [if_neg hex]
              have hinv2 : ScrapeInv existing_urls (acc ++ [stripQuery url]) := by
                obtain ⟨hnd, hmemall⟩ := h
                constructor
                · rw [List.nodup_append]
                  refine ⟨hnd, List.nodup_singleton _, ?_⟩
                  intro a ha hb
                  simp only [List.mem_singleton] at hb
                  exact hmem (hb ▸ ha)
                · intro u hu
                  rcases List.mem_append.mp hu with hu | hu
                  · exact hmemall u hu
                  · simp only [List.mem_singleton] at hu
                    subst hu
                    exact ⟨hex, strContains_stripQuery _ _ hprem.1,
                      strContains_stripQuery _ _ hprem.2, stripQuery_idem url⟩
              split
              · exact hinv2
              · exact ih _ hinv2
        · rw [if_neg hiu]
          exact ih acc h

theorem scrollLoop_inv (max_images : Nat) (existing_urls : List String) :
    ∀ (snapshots : List (List String)) (acc : List String),
      ScrapeInv existing_urls acc →
      ScrapeInv existing_urls (scrollLoop max_images existing_urls snapshots acc) := by
  intro snapshots
  induction snapshots with
  | nil =>
      intro acc h
      simpa [scrollLoop] using h
  | cons snapshot rest ih =>
      intro acc h
      simp only [scrollLoop]
      split
      · exact h
      · exact ih _ (scanSrcset_inv max_images existing_urls snapshot acc h)

/-- C3: every list returned by scrape_unsplash_category has at most
max_images entries, no duplicates, no URL from the exclusion set, no
URL containing the premium domain plus.unsplash.com or the premium
marker premium_photo, and only query-stripped URLs. -/
theorem scrapeCategory_result_filtered (snapshots : List (List String))
    (existing_urls : List String) (max_images : Nat) :
    (scrape_unsplash_category snapshots existing_urls max_images).length ≤ max_images ∧
    (scrape_unsplash_category snapshots existing_urls max_images).Nodup ∧
    ∀ u ∈ scrape_unsplash_category snapshots existing_urls max_images,
      u ∉ existing_urls ∧
      strContains u "plus.unsplash.com" = false ∧
      strContains u "premium_photo" = false ∧
      stripQuery u = u := by
  have hinv : ScrapeInv existing_urls
      (scrollLoop max_images existing_urls snapshots []) :=
    scrollLoop_inv max_images existing_urls snapshots []
      ⟨List.nodup_nil, by intro u hu; exact absurd hu (List.not_mem_nil u)⟩
  refine ⟨(scrollLoop max_images existing_urls snapshots []).length_take_le _, ?_, ?_⟩
  · exact hinv.1.sublist (List.take_sublist _ _)
  · intro u hu
    exact hinv.2 u (List.take_subset _ _ hu)

/-- A model row freshly inserted by get_or_create_model is found by the
following lookup, so a second call changes nothing. -/
theorem get_or_create_model_idem (model_name : String) (db : Db) :
    get_or_create_model model_name ((get_or_create_model model_name db).2) =
      get_or_create_model model_name db := by
  unfold get_or_create_model
  cases hf : db.models.find? (fun r => r.name == model_name) with
  | some r => simp [hf]
  | none =>
      dsimp only
      have hfind : ((db.models ++ [ModelRow.mk (toString db.nextId) model_name]).find?
          (fun r => r.name == model_name)) =
          some (ModelRow.mk (toString db.nextId) model_name) := by
        simp [List.find?_append, hf]
      simp [hfind]

/-- A game row freshly inserted by get_or_create_game is found by the
following lookup, so a second call changes nothing. -/
theorem get_or_create_game_idem (game_date : String) (db : Db) :
    get_or_create_game game_date ((get_or_create_game game_date db).2) =
      get_or_create_game game_date db := by
  unfold get_or_create_game
  cases hf : db.games.find? (fun r => r.date == game_date) with
  | some r => simp [hf]
  | none =>
      dsimp only
      have hfind : ((db.games ++ [GameRow.mk (toString db.nextId) game_date]).find?
          (fun r => r.date == game_date)) =
          some (GameRow.mk (toString db.nextId) game_date) := by
        simp [List.find?_append, hf]
      simp [hfind]

theorem get_or_create_model_nodup (model_name : String) (db : Db)
    (h : (db.models.map ModelRow.name).Nodup) :
    (((get_or_create_model model_name db).2).models.map ModelRow.name).Nodup := by
  unfold get_or_create_model
  cases hf : db.models.find? (fun r => r.name == model_name) with
  | some r => simpa using h
  | none =>
      have hn : ∀ r ∈ db.models, r.name ≠ model_name := by
        intro r hr
        have := List.find?_eq_none.mp hf r hr
        simpa using this
      dsimp only
      rw [List.map_append, List.nodup_append]
      refine ⟨h, by simp, ?_⟩
      intro a ha hb
      simp only [List.map_singleton, List.mem_singleton] at hb
      obtain ⟨r, hr, hrn⟩ := List.mem_map.mp ha
      exact hn r hr (hrn.trans hb)

theorem get_or_create_game_nodup (game_date : String) (db : Db)
    (h : (db.games.map GameRow.date).Nodup) :
    (((get_or_create_game game_date db).2).games.map GameRow.date).Nodup := by
  unfold get_or_create_game
  cases hf : db.games.find? (fun r => r.date == game_date) with
  | some r => simpa using h
  | none =>
      have hn : ∀ r ∈ db.games, r.date ≠ game_date := by
        intro r hr
        have := List.find?_eq_none.mp hf r hr
        simpa using this
      dsimp only
      rw [List.map_append, List.nodup_append]
      refine ⟨h, by simp, ?_⟩
      intro a ha hb
      simp only [List.map_singleton, List.mem_singleton] at hb
      obtain ⟨r, hr, hrn⟩ := List.mem_map.mp ha
      exact hn r hr (hrn.trans hb)

/-- Any sequence of get_or_create_model calls, applied in order. -/
def runModelCalls (names : List String) (db : Db) : Db :=
  names.foldl (fun d n => (get_or_create_model n d).2) db

/-- Any sequence of get_or_create_game calls, applied in order. -/
def runGameCalls (dates : List String) (db : Db) : Db :=
  dates.foldl (fun d n => (get_or_create_game n d).2) db

theorem runModelCalls_nodup (names : List String) :
    ∀ db : Db, (db.models.map ModelRow.name).Nodup →
      ((runModelCalls names db).models.map ModelRow.name).Nodup := by
  induction names with
  | nil => intro db h; simpa [runModelCalls] using h
  | cons n rest ih =>
      intro db h
      simp only [runModelCalls, List.foldl_cons]
      exact ih _ (get_or_create_model_nodup n db h)

theorem runGameCalls_nodup (dates : List String) :
    ∀ db : Db, (db.games.map GameRow.date).Nodup →
      ((runGameCalls dates db).games.map GameRow.date).Nodup := by
  induction dates with
  | nil => intro db h; simpa [runGameCalls] using h
  | cons n rest ih =>
      intro db h
      simp only [runGameCalls, List.foldl_cons]
      exact ih _ (get_or_create_game_nodup n db h)

/-- C6: get_or_create_model and get_or_create_game are idempotent: a
second call with the same key returns the same id and leaves the store
untouched; and starting from a store with at most one model row per
name and one game row per date, any sequence of calls preserves that
uniqueness. -/
theorem getOrCreate_idempotent_and_unique (model_name game_date : String)
    (db : Db) (names dates : List String)
    (hm : (db.models.map ModelRow.name).Nodup)
    (hg : (db.games.map GameRow.date).Nodup) :
    get_or_create_model model_name ((get_or_create_model model_name db).2) =
      get_or_create_model model_name db ∧
    get_or_create_game game_date ((get_or_create_game game_date db).2) =
      get_or_create_game game_date db ∧
    ((runModelCalls names db).models.map ModelRow.name).Nodup ∧
    ((runGameCalls dates db).games.map GameRow.date).Nodup :=
  ⟨get_or_create_model_idem model_name db,
   get_or_create_game_idem game_date db,
   runModelCalls_nodup names db hm,
   runGameCalls_nodup dates db hg⟩

/-- C6 witness: the idempotence and uniqueness property exercised at the
empty store with concrete keys and a concrete call sequence. -/
theorem getOrCreate_idempotent_and_unique_witness :
    ((Db.mk [] [] [] [] 0).models.map ModelRow.name).Nodup ∧
    ((Db.mk [] [] [] [] 0).games.map GameRow.date).Nodup ∧
    (get_or_create_model "Gemini 2.5 Flash Image"
        ((get_or_create_model "Gemini 2.5 Flash Image" (Db.mk [] [] [] [] 0)).2) =
      get_or_create_model "Gemini 2.5 Flash Image" (Db.mk [] [] [] [] 0) ∧
     get_or_create_game "2025-12-25"
        ((get_or_create_game "2025-12-25" (Db.mk [] [] [] [] 0)).2) =
      get_or_create_game "2025-12-25" (Db.mk [] [] [] [] 0) ∧
     ((runModelCalls ["a", "a", "b"] (Db.mk [] [] [] [] 0)).models.map
        ModelRow.name).Nodup ∧
     ((runGameCalls ["2025-12-25", "2025-12-25"] (Db.mk [] [] [] [] 0)).games.map
        GameRow.date).Nodup) :=
  ⟨by simp, by simp,
   getOrCreate_idempotent_and_unique "Gemini 2.5 Flash Image" "2025-12-25"
     (Db.mk [] [] [] [] 0) ["a", "a", "b"] ["2025-12-25", "2025-12-25"]
     (by simp) (by simp)⟩

/-- get_or_create_model only touches the models table and the id
counter: files and file_pairs are unchanged. -/
theorem get_or_create_model_files (model_name : String) (db : Db) :
    ((get_or_create_model model_name db).2).files = db.files ∧
    ((get_or_create_model model_name db).2).file_pairs = db.file_pairs := by
  unfold get_or_create_model
  cases hf : db.models.find? (fun r => r.name == model_name) <;> simp

/-- Postcondition of a successful process_image_pair run on database db
ending in database db2 with result res: the files table grew by exactly
the real row (source_type real, the real URL, no model, no prompt) and
the generated row (source_type generated, the resolved model id, the
synthesized prompt), in that order; and the file_pairs table grew by
exactly one pair row with zero vote counts referencing both new files
and the supplied game when the supplied game_id is truthy, and is
untouched otherwise. -/
def PairRunPost (db db2 : Db) (res : PairResult)
    (real_image_url : String) (game_id : Option String) : Prop :=
  (∃ generated_url,
     db2.files = db.files ++
       [⟨res.realFileId, real_image_url, "real", none, none⟩,
        ⟨res.generatedFileId, generated_url, "generated",
          some (get_or_create_model "Gemini 2.5 Flash Image" db).1,
          some res.prompt⟩]) ∧
  (pyTruthy game_id = true →
     ∃ fp g, game_id = some g ∧ res.filePairId = some fp ∧
       db2.file_pairs = db.file_pairs ++
         [⟨fp, res.realFileId, res.generatedFileId, g, 0, 0⟩]) ∧
  (pyTruthy game_id = false →
     res.filePairId = none ∧ db2.file_pairs = db.file_pairs)

theorem persistPair_post (u gu p : String) (gid : Option String) (db : Db) :
    PairRunPost db (persistPair u gu p gid db).2 (persistPair u gu p gid db).1
      u gid := by
  have hfp := get_or_create_model_files "Gemini 2.5 Flash Image" db
  unfold PairRunPost
  cases hgt : pyTruthy gid with
  | false =>
      refine ⟨⟨gu, ?_⟩, ?_, ?_⟩
      · simp [persistPair, insert_file_record, hgt, hfp.1]
      · intro hc
        exact Bool.noConfusion hc
      · intro _
        constructor
        · simp [persistPair, insert_file_record, hgt]
        · simp [persistPair, insert_file_record, hgt, hfp.2]
  | true =>
      refine ⟨⟨gu, ?_⟩, ?_, ?_⟩
      · simp [persistPair, insert_file_record, create_file_pair, hgt, hfp.1]
      · intro _
        simp only [persistPair, insert_file_record, create_file_pair, hgt, if_true]
        exact ⟨toString ((get_or_create_model "Gemini 2.5 Flash Image" db).2.nextId + 1 + 1),
          gid.getD "", pyTruthy_some gid hgt, rfl, by rw [hfp.2]⟩
      · intro hc
        exact Bool.noConfusion hc

/-- C1 amended: every successful run of process_image_pair inserts
exactly the two file rows of the claim (differing source_type, the
real one carrying the input URL and neither model nor prompt, the
generated one carrying the resolved model id and the synthesized
prompt), and inserts the zero-vote FilePair referencing both new files
and the game exactly when the supplied game_id is truthy, that is,
present and non-empty. -/
theorem processImagePair_inserts_two_files_and_pair (env : Env)
    (real_image_url : String) (game_id : Option String) (db : Db)
    (res : PairResult) (db2 : Db)
    (h : process_image_pair env real_image_url game_id db = .ok (res, db2)) :
    PairRunPost db db2 res real_image_url game_id := by
  unfold process_image_pair at h
  cases h1 : download_image env.fetch real_image_url with
  | error e => rw [h1] at h; exact Except.noConfusion h
  | ok rb =>
    rw [h1] at h
    dsimp only at h
    cases h2 : generate_image_description env.fetch env.describe real_image_url with
    | error e => rw [h2] at h; exact Except.noConfusion h
    | ok prompt =>
      rw [h2] at h
      dsimp only at h
      cases h3 : generate_image_with_imagen env.generate prompt with
      | error e => rw [h3] at h; exact Except.noConfusion h
      | ok gb =>
        rw [h3] at h
        dsimp only at h
        cases h4 : upload_to_vercel_blob
            (env.blobPut ("generated-" ++ toString env.now_ms ++ ".jpg") gb) with
        | error e => rw [h4] at h; exact Except.noConfusion h
        | ok gu =>
          rw [h4] at h
          dsimp only at h
          have h5 : persistPair real_image_url gu prompt game_id db = (res, db2) := by
            injection h
          have hpost := persistPair_post real_image_url gu prompt game_id db
          rw [h5] at hpost
          exact hpost

/-- C1 counterexample: with every external stage succeeding and the
supplied game id being the empty string, the check if game_id: in the
source is falsy, so no FilePair is inserted even though a gameId was
supplied; the claim that the pair is inserted if and only if a gameId
was supplied is therefore false. -/
theorem processImagePair_empty_gameid_no_pair :
    process_image_pair
      (Env.mk (fun _ => .ok ⟨200, "realbytes"⟩)
        (fun _ => .ok (some "a coastal scene"))
        (fun _ => .ok (some "genbytes"))
        (fun _ _ => .ok ⟨200, some "https://blob.vercel-storage.com/generated-5.jpg"⟩)
        5)
      "https://images.unsplash.com/photo-7" (some "") (Db.mk [] [] [] [] 0) =
    .ok (PairResult.mk "1" "2" "a coastal scene" none,
      Db.mk [ModelRow.mk "0" "Gemini 2.5 Flash Image"] []
        [FileRow.mk "1" "https://images.unsplash.com/photo-7" "real" none none,
         FileRow.mk "2" "https://blob.vercel-storage.com/generated-5.jpg"
           "generated" (some "0") (some "a coastal scene")]
        [] 3) := rfl

/-- C1 witness: the amended theorem applied to a concrete successful
run with a truthy game id. -/
theorem processImagePair_inserts_two_files_and_pair_witness :
    process_image_pair
      (Env.mk (fun _ => .ok ⟨200, "realbytes"⟩)
        (fun _ => .ok (some "a coastal scene"))
        (fun _ => .ok (some "genbytes"))
        (fun _ _ => .ok ⟨200, some "https://blob.vercel-storage.com/generated-5.jpg"⟩)
        5)
      "https://images.unsplash.com/photo-7" (some "g1") (Db.mk [] [] [] [] 0) =
    .ok (PairResult.mk "1" "2" "a coastal scene" (some "3"),
      Db.mk [ModelRow.mk "0" "Gemini 2.5 Flash Image"] []
        [FileRow.mk "1" "https://images.unsplash.com/photo-7" "real" none none,
         FileRow.mk "2" "https://blob.vercel-storage.com/generated-5.jpg"
           "generated" (some "0") (some "a coastal scene")]
        [FilePairRow.mk "3" "1" "2" "g1" 0 0] 4) ∧
    PairRunPost (Db.mk [] [] [] [] 0)
      (Db.mk [ModelRow.mk "0" "Gemini 2.5 Flash Image"] []
        [FileRow.mk "1" "https://images.unsplash.com/photo-7" "real" none none,
         FileRow.mk "2" "https://blob.vercel-storage.com/generated-5.jpg"
           "generated" (some "0") (some "a coastal scene")]
        [FilePairRow.mk "3" "1" "2" "g1" 0 0] 4)
      (PairResult.mk "1" "2" "a coastal scene" (some "3"))
      "https://images.unsplash.com/photo-7" (some "g1") :=
  ⟨rfl,
   processImagePair_inserts_two_files_and_pair
     (Env.mk (fun _ => .ok ⟨200, "realbytes"⟩)
       (fun _ => .ok (some "a coastal scene"))
       (fun _ => .ok (some "genbytes"))
       (fun _ _ => .ok ⟨200, some "https://blob.vercel-storage.com/generated-5.jpg"⟩)
       5)
     "https://images.unsplash.com/photo-7" (some "g1") (Db.mk [] [] [] [] 0)
     (PairResult.mk "1" "2" "a coastal scene" (some "3"))
     (Db.mk [ModelRow.mk "0" "Gemini 2.5 Flash Image"] []
       [FileRow.mk "1" "https://images.unsplash.com/photo-7" "real" none none,
        FileRow.mk "2" "https://blob.vercel-storage.com/generated-5.jpg"
          "generated" (some "0") (some "a coastal scene")]
       [FilePairRow.mk "3" "1" "2" "g1" 0 0] 4)
     rfl⟩

/-- C10: the pool is not deduplicated across categories.  With the
scraper wired to scrape_unsplash_category over concrete DOM snapshots
that expose the same free image URL in two categories, and an empty
database, scrape_images_from_random_categories returns that URL twice:
URLs collected from an earlier category are never added to the
exclusion set of later category scrapes. -/
theorem scrapePool_cross_category_duplicate :
    (scrape_images_from_random_categories
        (fun _ images_needed =>
          .ok (scrape_unsplash_category_db
            (List.replicate 15 ["https://images.unsplash.com/photo-1?w=400"])
            (.ok []) images_needed))
        ["people", "animals"] 2).1 =
      .ok ["https://images.unsplash.com/photo-1",
           "https://images.unsplash.com/photo-1"] ∧
    ¬ (["https://images.unsplash.com/photo-1",
        "https://images.unsplash.com/photo-1"] : List String).Nodup :=
  ⟨rfl, by decide⟩
